import Mathlib

/-!
Shallow embedding of the Ethereum bridge event observation pipeline
(protocol-units/bridge/chains/ethereum/src/event_logging.rs, with the data
model of types.rs), together with theorems settling the behavioural claims
of the specification against it.

Rust values are translated at their natural granularity: machine integers
become Nat with explicit truncation where the source truncates, fallible
code returns Option or an explicit outcome type, and a Rust panic (an
expect, an unwrap, an out-of-bounds index, or the unimplemented macro) is
an explicit constructor of the outcome type.
-/

namespace EthBridge

/-- A byte, as in the Rust u8; modelled as Nat, semantically below 256. -/
abbrev Byte := Nat

/-- The type alias from types.rs line 10: a 32-byte hash, modelled as a byte list. -/
abbrev EthHash := List Byte

/-- The newtype from types.rs line 13 wrapping a 20-byte Ethereum address. -/
structure EthAddress where
  addr : List Byte

/-- Conversion of a byte vector into an EthHash (the From conversion used at
each decode site); width checking happens upstream of these call sites, so it
is the identity on the byte list. -/
def EthHash.fromBytes (bs : List Byte) : EthHash := bs

/-- Truncation of a 256-bit unsigned value to 64 bits, as the as_u64 calls on
the decoded time lock and amount perform. -/
def as_u64 (v : Nat) : Nat := v % 2 ^ 64

/-- A decoded ABI value, as produced by the external library parser and read
back positionally at the decode sites. Modelled from the spec: the opaque data
payload of a log is represented at the granularity of its decoded positional
field values (log wire shape of section 6, schema-driven positional layout of
section 4.1). -/
inductive Token where
  | fixedBytes (bs : List Byte)
  | address (a : List Byte)
  | uint (v : Nat)
  | bytes (bs : List Byte)

/-- Fallible extraction of a fixed-byte token (into_fixed_bytes). -/
def Token.into_fixed_bytes : Token → Option (List Byte)
  | .fixedBytes bs => some bs
  | _ => none

/-- Fallible extraction of an address token (into_address). -/
def Token.into_address : Token → Option (List Byte)
  | .address a => some a
  | _ => none

/-- Fallible extraction of an unsigned integer token (into_uint). -/
def Token.into_uint : Token → Option Nat
  | .uint v => some v
  | _ => none

/-- The decoded data payload of a log: its ordered positional field values. -/
abbrev LogData := List Token

/-- The raw log shape consumed from the chain subscription: the topic list,
whose first entry is the event signature hash, and the data payload. -/
structure Log where
  topics : List EthHash
  data : LogData

/-- Modelled from the spec: the bridge transfer identifier of the shared type
crate (section 3), a wrapped hash value. The shared type crate is not under
src, only its uses are. -/
structure BridgeTransferId (H : Type) where
  val : H

/-- Modelled from the spec: the initiator address wrapper of the shared type
crate (section 3). -/
structure InitiatorAddress (A : Type) where
  val : A

/-- Modelled from the spec: the recipient address wrapper of the shared type
crate; at the decode sites it carries a raw byte vector. -/
structure RecipientAddress (A : Type) where
  val : A

/-- Modelled from the spec: the hash lock wrapper of the shared type crate. -/
structure HashLock (H : Type) where
  val : H

/-- Modelled from the spec: the time lock wrapper, an unsigned duration or
deadline value (section 3). -/
structure TimeLock where
  val : Nat

/-- Modelled from the spec: the amount wrapper, an unsigned integral value in
the chain base unit (section 3). -/
structure Amount where
  val : Nat

/-- Modelled from the spec: the variable-length hash lock pre-image secret
(section 3). -/
structure HashLockPreImage where
  val : List Byte

/-- Modelled from the spec: the aggregate of one initiated transfer (section
3); field types follow their use at the decode sites of event_logging.rs,
where the recipient is carried as a raw byte vector. -/
structure BridgeTransferDetails (A H : Type) where
  bridge_transfer_id : BridgeTransferId H
  initiator_address : InitiatorAddress A
  recipient_address : RecipientAddress (List Byte)
  hash_lock : HashLock H
  time_lock : TimeLock
  amount : Amount

/-- Modelled from the spec: the counterparty-side lock projection (section 3),
with the identity and lock fields. -/
structure LockDetails (A H : Type) where
  bridge_transfer_id : BridgeTransferId H
  recipient_address : RecipientAddress A
  hash_lock : HashLock H
  time_lock : TimeLock
  amount : Amount

/-- Modelled from the spec: the counterparty-side completion projection
(section 3), with the identity and lock fields and the revealed secret. -/
structure CompletedDetails (A H : Type) where
  bridge_transfer_id : BridgeTransferId H
  recipient_address : RecipientAddress A
  hash_lock : HashLock H
  secret : HashLockPreImage
  amount : Amount

/-- Modelled from the spec: the initiator-side role event taxonomy (section
3): Initiated carries the transfer details, Completed and Refunded carry the
transfer id. From the shared monitoring module, not under src. -/
inductive BridgeContractInitiatorEvent (A H : Type) where
  | Initiated (details : BridgeTransferDetails A H)
  | Completed (id : BridgeTransferId H)
  | Refunded (id : BridgeTransferId H)

/-- The initiator-side error enumeration of event_logging.rs lines 47-55. -/
inductive EthInitiatorError where
  | InitiateTransferError
  | TransferNotFound
  | InvalidHashLockPreImage

/-- The counterparty-side error enumeration of event_logging.rs lines 33-39. -/
inductive MoveCounterpartyError where
  | TransferNotFound
  | InvalidHashLockPreImage

/-- The counterparty event enumeration of event_logging.rs lines 27-31. -/
inductive MoveCounterpartyEvent (A H : Type) where
  | LockedBridgeTransfer (d : LockDetails A H)
  | CompletedBridgeTransfer (d : CompletedDetails A H)

/-- Modelled from the spec: the initiator-contract result alias of types.rs
(the part not under src) - a role event or a typed error. -/
abbrev SCIResult (A H : Type) := Except EthInitiatorError (BridgeContractInitiatorEvent A H)

/-- Modelled from the spec: the counterparty-contract result alias of
types.rs (the part not under src). -/
abbrev SCCResult (A H : Type) := Except MoveCounterpartyError (MoveCounterpartyEvent A H)

/-- The abstract event envelope of event_logging.rs lines 57-62, spelling
included. -/
inductive AbstractBlockainEvent (A H : Type) where
  | InitiatorContractEvent (res : SCIResult A H)
  | CounterpartyContractEvent (res : SCCResult A H)
  | Noop

/-- Outcome of a Rust expression that may panic but returns no error value:
either a panic (an expect, an unwrap, an out-of-bounds index, or the
unimplemented macro) or a normal value. -/
inductive PanicOr (α : Type) where
  | panicked (msg : String)
  | ok (val : α)

/-- Sequencing of panicking computations: a panic short-circuits. -/
def PanicOr.bind {α β : Type} : PanicOr α → (α → PanicOr β) → PanicOr β
  | .panicked m, _ => .panicked m
  | .ok a, f => f a

/-- Outcome of a Rust expression that may panic or return a typed error. -/
inductive Outcome (α : Type) where
  | panicked (msg : String)
  | errored (msg : String)
  | ok (val : α)

/-- Sequencing of fallible computations: a panic or an error short-circuits. -/
def Outcome.bind {α β : Type} : Outcome α → (α → Outcome β) → Outcome β
  | .panicked m, _ => .panicked m
  | .errored m, _ => .errored m
  | .ok a, f => f a

/-- Rust vector indexing, which panics when the index is out of bounds. -/
def indexO {α : Type} (xs : List α) (i : Nat) : Outcome α :=
  match xs.get? i with
  | some a => .ok a
  | none => .panicked "index out of bounds"

/-- Conversion-failure propagation at the decode sites of decode_log_data: a
token of the wrong shape becomes a returned error, not a panic. -/
def tokenAs {α : Type} (o : Option α) : Outcome α :=
  match o with
  | some a => .ok a
  | none => .errored "invalid token type"

/-- Indexing followed by unwrap of a fixed-byte extraction, as written at the
convert_log_to_event decode sites: both failure modes panic. -/
def tokenFixedBytes (tokens : List Token) (i : Nat) : PanicOr (List Byte) :=
  match tokens.get? i with
  | none => .panicked "index out of bounds"
  | some t =>
    match t.into_fixed_bytes with
    | some bs => .ok bs
    | none => .panicked "called unwrap on a None value"

/-- Indexing followed by unwrap of an address extraction in
convert_log_to_event. -/
def tokenAddress (tokens : List Token) (i : Nat) : PanicOr (List Byte) :=
  match tokens.get? i with
  | none => .panicked "index out of bounds"
  | some t =>
    match t.into_address with
    | some a => .ok a
    | none => .panicked "called unwrap on a None value"

/-- Indexing followed by unwrap of an unsigned integer extraction in
convert_log_to_event. -/
def tokenUint (tokens : List Token) (i : Nat) : PanicOr Nat :=
  match tokens.get? i with
  | none => .panicked "index out of bounds"
  | some t =>
    match t.into_uint with
    | some v => .ok v
    | none => .panicked "called unwrap on a None value"

/-- Modelled from the spec: the signature hash constant of the Initiated
event from the contract binding (not under src) - an opaque 32-byte value;
the three signature hashes are pairwise distinct. -/
def initiated_log : EthHash := List.replicate 31 0 ++ [1]

/-- Modelled from the spec: the signature hash constant of the Completed
event from the contract binding (not under src). -/
def completed_log : EthHash := List.replicate 31 0 ++ [2]

/-- Modelled from the spec: the signature hash constant of the Refunded event
from the contract binding (not under src). -/
def refunded_log : EthHash := List.replicate 31 0 ++ [3]

/-- Modelled from the spec: the event name enumeration from the part of
types.rs not under src, with the three role event names of section 3; an
unrecognized name maps to the Unknown tag. -/
inductive EventName where
  | Initiated
  | Completed
  | Refunded
  | Unknown

/-- The textual form of an event name (as_str). -/
def EventName.as_str : EventName → String
  | .Initiated => "Initiated"
  | .Completed => "Completed"
  | .Refunded => "Refunded"
  | .Unknown => "Unknown"

/-- The parse of an event name from its textual form (the From conversion). -/
def EventName.fromString (s : String) : EventName :=
  if s = "Initiated" then .Initiated
  else if s = "Completed" then .Completed
  else if s = "Refunded" then .Refunded
  else .Unknown

/-- The ABI parameter types used by the per-event schemas (the field of the
parameter descriptors produced by the fill method of the parameter
enumeration in the part of types.rs not under src; modelled from the fixed
per-event schemas of spec section 4.1). -/
inductive ParamType where
  | bytes32
  | addressTy
  | uint256
  | bytesTy

/-- The parameter descriptor enumeration used at the decode call sites. -/
inductive AlloyParam where
  | BridgeTransferId
  | InitiatorAddress
  | RecipientAddress
  | HashLock
  | TimeLock
  | Amount
  | PreImage

/-- Modelled from the spec: the fill method mapping each parameter descriptor
to its ABI type, following the extraction performed on each position at the
decode sites. -/
def AlloyParam.fill : AlloyParam → ParamType
  | .BridgeTransferId => .bytes32
  | .InitiatorAddress => .addressTy
  | .RecipientAddress => .bytes32
  | .HashLock => .bytes32
  | .TimeLock => .uint256
  | .Amount => .uint256
  | .PreImage => .bytesTy

/-- Matching of one decoded token against its declared ABI type. -/
def tokenMatches : ParamType → Token → Bool
  | .bytes32, .fixedBytes _ => true
  | .addressTy, .address _ => true
  | .uint256, .uint _ => true
  | .bytesTy, .bytes _ => true
  | _, _ => false

/-- Modelled from the spec: the external library parse step invoked by
decode_log_data; per section 4.1 it rejects payloads whose field count does
not match the schema, fails on per-field type mismatches, and otherwise
yields the ordered field values. -/
def parse_log (params : List ParamType) (data : LogData) : Except String (List Token) :=
  if data.length = params.length then
    if (List.zip params data).all (fun pt => tokenMatches pt.1 pt.2) then
      .ok data
    else .error "field decode error"
  else .error "schema mismatch"

/-- The first arm of the match in decode_log_data (event_logging.rs lines
259-280), keyed on the Completed name: it extracts six fields and builds an
Initiated event; a wrongly shaped token surfaces as a returned error. -/
def decode_completed_arm (decoded : List Token) :
    Outcome (BridgeContractInitiatorEvent EthAddress EthHash) :=
  (indexO decoded 0).bind fun d0 =>
  (tokenAs d0.into_fixed_bytes).bind fun id_bs =>
  (indexO decoded 1).bind fun d1 =>
  (tokenAs d1.into_address).bind fun init_bs =>
  (indexO decoded 2).bind fun d2 =>
  (tokenAs d2.into_fixed_bytes).bind fun recip_bs =>
  (indexO decoded 3).bind fun d3 =>
  (tokenAs d3.into_fixed_bytes).bind fun lock_bs =>
  (indexO decoded 4).bind fun d4 =>
  (tokenAs d4.into_uint).bind fun tl =>
  (indexO decoded 5).bind fun d5 =>
  (tokenAs d5.into_uint).bind fun amt =>
  Outcome.ok (BridgeContractInitiatorEvent.Initiated
    { bridge_transfer_id := ⟨EthHash.fromBytes id_bs⟩
      initiator_address := ⟨⟨init_bs⟩⟩
      recipient_address := ⟨recip_bs⟩
      hash_lock := ⟨EthHash.fromBytes lock_bs⟩
      time_lock := ⟨as_u64 tl⟩
      amount := ⟨as_u64 amt⟩ })

/-- The arm of the match in decode_log_data keyed on the Refunded name
(event_logging.rs lines 287-292): the transfer id alone. -/
def decode_refunded_arm (decoded : List Token) :
    Outcome (BridgeContractInitiatorEvent EthAddress EthHash) :=
  (indexO decoded 0).bind fun d0 =>
  (tokenAs d0.into_fixed_bytes).bind fun id_bs =>
  Outcome.ok (BridgeContractInitiatorEvent.Refunded ⟨EthHash.fromBytes id_bs⟩)

/-- Translation of decode_log_data (event_logging.rs lines 233-295). The
source match on the event name has two arms keyed on the Completed tag; Rust
takes the first matching arm, so the second arm (lines 281-285, the one that
would build a Completed event) is unreachable and is therefore absent here,
and no arm is keyed on the Initiated tag, so that name falls to the catch-all
error arm. -/
def decode_log_data (address : EthAddress) (name : String) (data : LogData)
    (params : List ParamType) :
    Outcome (BridgeContractInitiatorEvent EthAddress EthHash) :=
  match parse_log params data with
  | .error e => .errored e
  | .ok decoded =>
    match EventName.fromString name with
    | EventName.Completed => decode_completed_arm decoded
    | EventName.Refunded => decode_refunded_arm decoded
    | _ => .errored "Unexpected event type"

/-- Translation of convert_log_to_event (event_logging.rs lines 150-231):
dispatch on the first topic against the three signature hashes; the first
topic is taken with expect, panicking on an empty topic list (line 163),
field extraction uses unwrap, and an unrecognized topic hits the
unimplemented macro (line 229). The source routes the payload through
decode_log_data and then reads the result positionally as the vector of
decoded field values; the embedding reads those field values from the decoded
payload directly, per the extraction written in each branch body. -/
def convert_log_to_event (address : EthAddress) (log : Log) :
    PanicOr (BridgeContractInitiatorEvent EthAddress EthHash) :=
  let topics := log.topics
  let tokens := log.data
  match topics.get? 0 with
  | none => .panicked "Expected event type in topics"
  | some topic =>
    if topic = initiated_log then
      (tokenFixedBytes tokens 0).bind fun id_bs =>
      (tokenAddress tokens 1).bind fun init_bs =>
      (tokenFixedBytes tokens 2).bind fun recip_bs =>
      (tokenFixedBytes tokens 3).bind fun lock_bs =>
      (tokenUint tokens 4).bind fun tl =>
      (tokenUint tokens 5).bind fun amt =>
      PanicOr.ok (BridgeContractInitiatorEvent.Initiated
        { bridge_transfer_id := ⟨EthHash.fromBytes id_bs⟩
          initiator_address := ⟨⟨init_bs⟩⟩
          recipient_address := ⟨recip_bs⟩
          hash_lock := ⟨EthHash.fromBytes lock_bs⟩
          time_lock := ⟨as_u64 tl⟩
          amount := ⟨as_u64 amt⟩ })
    else if topic = completed_log then
      (tokenFixedBytes tokens 0).bind fun id_bs =>
      PanicOr.ok (BridgeContractInitiatorEvent.Completed ⟨EthHash.fromBytes id_bs⟩)
    else if topic = refunded_log then
      (tokenFixedBytes tokens 0).bind fun id_bs =>
      PanicOr.ok (BridgeContractInitiatorEvent.Refunded ⟨EthHash.fromBytes id_bs⟩)
    else .panicked "not implemented: Unexpected event type"

/-- Modelled from the spec: the single-producer single-consumer relay channel
(section 5): a FIFO buffer, and a closed flag set when the sending side is
gone. -/
structure Channel (α : Type) where
  buffer : List α
  closed : Bool

/-- A poll result: either ready with the next item (none meaning the sequence
has ended) or pending. -/
inductive Poll (α : Type) where
  | ready (item : Option α)
  | pending

/-- Modelled from the spec: one poll of the channel receiving end - the next
queued item if any, the terminal end-of-sequence result when the channel is
closed and empty, and pending otherwise (section 4.4). -/
def chanPollNext {α : Type} (c : Channel α) : Channel α × Poll α :=
  match c.buffer with
  | x :: rest => (⟨rest, c.closed⟩, .ready (some x))
  | [] => if c.closed then (c, .ready none) else (c, .pending)

/-- The trace record emitted when the stream receives a contract event
(event_logging.rs line 123). -/
def trace_received_event : String :=
  "InitiatorContractMonitoring: Received contract event"

/-- The error record emitted when the received contract event carries an
error (event_logging.rs line 142). -/
def error_in_contract_event : String := "Error in contract event"

/-- One step of the monitoring stream: the channel state after the poll, the
result handed to the caller, and the records logged during the step. -/
structure PollStep where
  state : Channel (AbstractBlockainEvent EthAddress EthHash)
  result : Poll (BridgeContractInitiatorEvent EthAddress EthHash)
  logged : List String

/-- Translation of the stream poll_next of the monitoring type
(event_logging.rs lines 118-147): one poll of the listener channel; only a
ready initiator-contract item with an Ok payload is returned to the caller,
and every other outcome - an Err payload (logged), a Noop or counterparty
item, the terminal end-of-sequence result of a closed and empty channel, and
nothing available - falls through to the final Pending. -/
def poll_next (listener : Channel (AbstractBlockainEvent EthAddress EthHash)) : PollStep :=
  match chanPollNext listener with
  | (st, .ready (some (AbstractBlockainEvent.InitiatorContractEvent contract_result))) =>
    match contract_result with
    | .ok contract_event =>
      match contract_event with
      | .Initiated details =>
        ⟨st, .ready (some (.Initiated details)), [trace_received_event]⟩
      | .Completed id =>
        ⟨st, .ready (some (.Completed id)), [trace_received_event]⟩
      | .Refunded id =>
        ⟨st, .ready (some (.Refunded id)), [trace_received_event]⟩
    | .error _ => ⟨st, .pending, [trace_received_event, error_in_contract_event]⟩
  | (st, .ready (some _)) => ⟨st, .pending, []⟩
  | (st, .ready none) => ⟨st, .pending, []⟩
  | (st, .pending) => ⟨st, .pending, []⟩

/-- The hardcoded initiator contract address of the run function (the address
macro literal of event_logging.rs line 82, also the constant of types.rs line
7): 0xf39Fd6e51aad88F6F4ce6aB8827279cffFb92266. -/
def initiator_address_bytes : List Byte :=
  [0xf3, 0x9f, 0xd6, 0xe5, 0x1a, 0xad, 0x88, 0xf6, 0xf4, 0xce,
   0x6a, 0xb8, 0x82, 0x72, 0x79, 0xcf, 0xff, 0xb9, 0x22, 0x66]

/-- The wrapped form of the hardcoded contract address, as passed to
convert_log_to_event by the relay loop. -/
def initiator_contract_address : EthAddress := ⟨initiator_address_bytes⟩

/-- The starting block selector of the subscription filter. -/
inductive BlockNumberOrTag where
  | Latest
  | Number (n : Nat)

/-- The subscription filter shape: the contract address filtered on, the
event signature allow-list, and the starting block selector. -/
structure Filter where
  address : List Byte
  events : List String
  from_block : BlockNumberOrTag

/-- The canonical signature of the Initiated event, as passed to the filter
(event_logging.rs line 85). -/
def initiated_event_signature : String :=
  "BridgeTransferInitiated(bytes32,address,bytes32,uint256)"

/-- The canonical signature of the Completed event, as passed to the filter
(event_logging.rs line 86). -/
def completed_event_signature : String := "BridgeTransferCompleted(bytes32,bytes32)"

/-- Modelled from the spec: the canonical signature of the Refunded event
(role taxonomy of section 3, signature format of section 6); no such string
occurs under src. -/
def refunded_event_signature : String := "BridgeTransferRefunded(bytes32)"

/-- The subscription filter built in run (event_logging.rs lines 83-87): the
hardcoded contract address, the two event signature strings passed to the
filter builder, and the Latest starting block. -/
def run_filter : Filter where
  address := initiator_address_bytes
  events := [initiated_event_signature, completed_event_signature]
  from_block := .Latest

/-- Translation of the relay loop spawned in run (event_logging.rs lines
96-106), with the liveness of the channel receiving end at each send step
given by alive: each iteration polls the next raw log from the subscription
stream, converts it - a panic in the conversion kills the task - wraps the
event in the initiator-contract envelope with an Ok payload, and sends it; a
failed send (the receiving end is gone) breaks the loop. Returns the events
that reached the receiver and the number of raw logs polled. -/
def relay_task (alive : Nat → Bool) :
    Nat → List Log → List (AbstractBlockainEvent EthAddress EthHash) × Nat
  | _, [] => ([], 0)
  | i, log :: rest =>
    match convert_log_to_event initiator_contract_address log with
    | .panicked _ => ([], 1)
    | .ok contract_event =>
      let event := AbstractBlockainEvent.InitiatorContractEvent (Except.ok contract_event)
      if alive i then
        let next := relay_task alive (i + 1) rest
        (event :: next.1, next.2 + 1)
      else ([], 1)

/-- The monitoring handle of event_logging.rs lines 64-67: the listener
channel receiving end held by the stream implementation (the provider handle
carries no event data and is omitted). -/
structure EthInitiatorMonitoring where
  listener : Channel (AbstractBlockainEvent EthAddress EthHash)

/-- What running the constructor produces: the monitoring handle, the relayed
events that reached a receiver, and the number of raw logs the relay polled. -/
structure RunResult where
  monitor : EthInitiatorMonitoring
  relayed : List (AbstractBlockainEvent EthAddress EthHash)
  polled : Nat

/-- Translation of run (event_logging.rs lines 75-109), with the raw log
sequence of the subscription given as sub_logs: the relay channel is created
with its receiving half immediately discarded (the underscore binding on line
93), so the receiver is never alive for any send attempt of the spawned relay
task; the returned monitor keeps the listener channel passed by the caller,
untouched by the relay. -/
def run (listener : Channel (AbstractBlockainEvent EthAddress EthHash))
    (sub_logs : List Log) : RunResult :=
  let relay := relay_task (fun _ => false) 0 sub_logs
  { monitor := { listener := listener }, relayed := relay.1, polled := relay.2 }

/-- Recognizer of a successful decode into the Completed variant. -/
def isCompletedOk : Outcome (BridgeContractInitiatorEvent EthAddress EthHash) → Bool
  | .ok (.Completed _) => true
  | _ => false

/-- Recognizer of the terminal end-of-sequence poll result. -/
def isTerminal {α : Type} : Poll α → Bool
  | .ready none => true
  | _ => false

/-- Sample transfer id: the 32-byte value with every byte one. -/
def sample_id : List Byte := List.replicate 32 1

/-- Sample initiator address bytes. -/
def sample_initiator : List Byte := List.replicate 20 0xaa

/-- Sample recipient bytes. -/
def sample_recipient : List Byte := List.replicate 32 0xbb

/-- Sample hash lock bytes. -/
def sample_hashlock : List Byte := List.replicate 32 0xcc

/-- Sample hash lock pre-image bytes. -/
def sample_preimage : List Byte := [1, 2, 3]

/-- The six-parameter schema passed at the Initiated decode site
(event_logging.rs lines 172-179). -/
def initiated_params : List ParamType :=
  [AlloyParam.BridgeTransferId.fill, AlloyParam.InitiatorAddress.fill,
   AlloyParam.RecipientAddress.fill, AlloyParam.HashLock.fill,
   AlloyParam.TimeLock.fill, AlloyParam.Amount.fill]

/-- The two-parameter schema passed at the Completed decode site
(event_logging.rs line 209). -/
def completed_params : List ParamType :=
  [AlloyParam.BridgeTransferId.fill, AlloyParam.PreImage.fill]

/-- The decoded payload of a well-formed Initiated log built from the sample
field values, with amount 100 and time lock 3600. -/
def initiated_tokens : LogData :=
  [Token.fixedBytes sample_id, Token.address sample_initiator,
   Token.fixedBytes sample_recipient, Token.fixedBytes sample_hashlock,
   Token.uint 3600, Token.uint 100]

/-- The decoded payload of a well-formed Completed log built from the sample
transfer id and pre-image. -/
def completed_tokens : LogData :=
  [Token.fixedBytes sample_id, Token.bytes sample_preimage]

/-- The raw Initiated log of the end-to-end demonstration: the Initiated
signature hash as first topic, the sample payload with amount 100 and time
lock 3600. -/
def demo_initiated_log : Log :=
  { topics := [initiated_log], data := initiated_tokens }

/-- The raw Completed log of the end-to-end demonstration, referencing the
same transfer id. -/
def demo_completed_log : Log :=
  { topics := [completed_log], data := completed_tokens }

/-- A raw log whose first topic (every byte nine) is none of the three
recognized signature hashes. -/
def unknown_topic_log : Log := { topics := [List.replicate 32 9], data := [] }

/-- The transfer details that decoding the demonstration Initiated log
yields. -/
def demo_details : BridgeTransferDetails EthAddress EthHash :=
  { bridge_transfer_id := ⟨sample_id⟩
    initiator_address := ⟨⟨sample_initiator⟩⟩
    recipient_address := ⟨sample_recipient⟩
    hash_lock := ⟨sample_hashlock⟩
    time_lock := ⟨3600⟩
    amount := ⟨100⟩ }

/-- An open listener channel with nothing queued. -/
def empty_channel : Channel (AbstractBlockainEvent EthAddress EthHash) := ⟨[], false⟩

/-- Inversion of a successful fallible sequence: the first computation
succeeded and the continuation succeeded on its value. -/
theorem Outcome.bind_ok {α β : Type} {x : Outcome α} {f : α → Outcome β} {b : β}
    (h : x.bind f = .ok b) : ∃ a, x = .ok a ∧ f a = .ok b := by
  cases x with
  | panicked m => simp [Outcome.bind] at h
  | errored m => simp [Outcome.bind] at h
  | ok a => exact ⟨a, rfl, h⟩

/-- Whenever the arm of decode_log_data keyed on the Completed name succeeds,
the event it produces is the Initiated variant. -/
theorem decode_completed_arm_ok {decoded : List Token}
    {e : BridgeContractInitiatorEvent EthAddress EthHash}
    (h : decode_completed_arm decoded = Outcome.ok e) :
    ∃ d, e = BridgeContractInitiatorEvent.Initiated d := by
  unfold decode_completed_arm at h
  obtain ⟨t0, -, h⟩ := Outcome.bind_ok h
  obtain ⟨id_bs, -, h⟩ := Outcome.bind_ok h
  obtain ⟨t1, -, h⟩ := Outcome.bind_ok h
  obtain ⟨init_bs, -, h⟩ := Outcome.bind_ok h
  obtain ⟨t2, -, h⟩ := Outcome.bind_ok h
  obtain ⟨recip_bs, -, h⟩ := Outcome.bind_ok h
  obtain ⟨t3, -, h⟩ := Outcome.bind_ok h
  obtain ⟨lock_bs, -, h⟩ := Outcome.bind_ok h
  obtain ⟨t4, -, h⟩ := Outcome.bind_ok h
  obtain ⟨tl, -, h⟩ := Outcome.bind_ok h
  obtain ⟨t5, -, h⟩ := Outcome.bind_ok h
  obtain ⟨amt, -, h⟩ := Outcome.bind_ok h
  injection h with h2
  exact ⟨_, h2.symm⟩

/-- The arm of decode_log_data keyed on the Completed name never produces the
Completed variant. -/
theorem isCompletedOk_decode_completed_arm (d : List Token) :
    isCompletedOk (decode_completed_arm d) = false := by
  cases h : decode_completed_arm d with
  | panicked m => rfl
  | errored m => rfl
  | ok e =>
    obtain ⟨det, rfl⟩ := decode_completed_arm_ok h
    rfl

/-- No invocation of decode_log_data on the Completed event name, whatever
the payload and schema, produces the Completed variant. -/
theorem decode_completed_name_never_completed (a : EthAddress) (data : LogData)
    (params : List ParamType) :
    isCompletedOk (decode_log_data a "Completed" data params) = false := by
  unfold decode_log_data
  cases hp : parse_log params data with
  | error e => rfl
  | ok decoded => exact isCompletedOk_decode_completed_arm decoded

/-- When the receiving end of the relay channel is dead from the current step
on, the relay loop forwards nothing and polls at most one raw log: zero when
the subscription sequence is exhausted, one otherwise (the send attempt on
that one log fails and the loop breaks). -/
theorem relay_task_receiver_dead (alive : Nat → Bool) (i : Nat) (logs : List Log)
    (h : ∀ j, i ≤ j → alive j = false) :
    (relay_task alive i logs).1 = [] ∧ (relay_task alive i logs).2 = min 1 logs.length := by
  cases logs with
  | nil => exact ⟨rfl, rfl⟩
  | cons l rest =>
    have ha : alive i = false := h i (Nat.le_refl i)
    simp only [relay_task]
    cases hc : convert_log_to_event initiator_contract_address l with
    | panicked m => simp [List.length]
    | ok ev =>
      rw [ha]
      simp [List.length]

/-- Claim C1: the end-to-end scenario fails on the code. With the Initiated
log (amount 100, time lock 3600) and the Completed log for the same transfer
id as the two items of the subscription stream, run forwards nothing to any
receiver - the relay channel's receiving half was discarded at creation, so
the first send fails and the task stops after one log - and the monitoring
stream's next pull on the listener returns Pending rather than the Initiated
item; yet the conversion itself decodes the first log to Initiated with
amount 100 and time lock 3600 and the second to Completed with the same id,
so the loss is in the relay wiring, not the decoding. -/
theorem scenario_events_never_delivered :
    (run empty_channel [demo_initiated_log, demo_completed_log]).relayed = [] ∧
    (run empty_channel [demo_initiated_log, demo_completed_log]).polled = 1 ∧
    (poll_next (run empty_channel
      [demo_initiated_log, demo_completed_log]).monitor.listener).result = Poll.pending ∧
    convert_log_to_event initiator_contract_address demo_initiated_log =
      PanicOr.ok (BridgeContractInitiatorEvent.Initiated demo_details) ∧
    demo_details.amount = ⟨100⟩ ∧
    demo_details.time_lock = ⟨3600⟩ ∧
    convert_log_to_event initiator_contract_address demo_completed_log =
      PanicOr.ok (BridgeContractInitiatorEvent.Completed ⟨sample_id⟩) :=
  ⟨rfl, rfl, rfl, rfl, rfl, rfl, rfl⟩

/-- Claim C2: decode_log_data does not map each event name to its own
variant. Its arm keyed on the Completed name is the duplicated one that
builds an Initiated event from six fields: no payload and schema whatsoever
make the Completed name decode to the Completed variant; on the actual
two-field Completed payload it returns a field error instead of the
Completed event; on an Initiated-shaped six-field payload it returns the
Initiated variant under the Completed name; and the Initiated name itself
falls to the catch-all error arm, reproducing no field values at all. -/
theorem decode_log_data_completed_misdispatch :
    (∀ (data : LogData) (params : List ParamType),
        isCompletedOk (decode_log_data initiator_contract_address "Completed" data params)
          = false) ∧
    decode_log_data initiator_contract_address "Completed" completed_tokens completed_params
      = Outcome.errored "invalid token type" ∧
    decode_log_data initiator_contract_address "Completed" initiated_tokens initiated_params
      = Outcome.ok (BridgeContractInitiatorEvent.Initiated demo_details) ∧
    decode_log_data initiator_contract_address "Initiated" initiated_tokens initiated_params
      = Outcome.errored "Unexpected event type" :=
  ⟨fun data params => decode_completed_name_never_completed initiator_contract_address data params,
   rfl, rfl, rfl⟩

/-- Claim C3: a raw log whose first topic (here the 32-byte value with every
byte nine, distinct from each of the three signature hashes) is not a
recognized event signature does not produce a typed UnknownEventType error;
convert_log_to_event hits the unimplemented macro and panics. -/
theorem convert_unknown_topic_panics :
    (List.replicate 32 9 == initiated_log) = false ∧
    (List.replicate 32 9 == completed_log) = false ∧
    (List.replicate 32 9 == refunded_log) = false ∧
    convert_log_to_event initiator_contract_address unknown_topic_log =
      PanicOr.panicked "not implemented: Unexpected event type" :=
  ⟨by decide, by decide, by decide, rfl⟩

/-- Claim C4: decoding a raw log with an empty topic list does not produce a
typed MalformedLog error; convert_log_to_event panics on the expect that
takes the first topic, whatever the data payload and contract address. -/
theorem convert_empty_topics_panics (a : EthAddress) (data : LogData) :
    convert_log_to_event a ⟨[], data⟩ = PanicOr.panicked "Expected event type in topics" := rfl

/-- Claim C5, counterexample: on a closed and empty relay channel the
monitoring stream's pull does not report the terminal end-of-sequence result;
it returns Pending. -/
theorem poll_next_closed_empty_not_terminal :
    isTerminal (poll_next ⟨[], true⟩).result = false ∧
    (poll_next ⟨[], true⟩).result = Poll.pending :=
  ⟨rfl, rfl⟩

/-- Claim C5, amended: when the relay channel is closed and empty, every
subsequent pull on the monitoring stream returns Pending with the channel
unchanged - the stream never reports a terminal end-of-stream result, so
exhaustion is not distinguishable from nothing-available-yet. -/
theorem poll_next_closed_empty_pending
    (c : Channel (AbstractBlockainEvent EthAddress EthHash))
    (hb : c.buffer = []) (hc : c.closed = true) :
    (poll_next c).result = Poll.pending ∧ (poll_next c).state = c := by
  have hch : chanPollNext c = (c, Poll.ready none) := by
    unfold chanPollNext
    rw [hb, hc]
    simp
  unfold poll_next
  rw [hch]
  exact ⟨rfl, rfl⟩

/-- Witness for the amended claim C5 at the concrete closed empty channel. -/
theorem poll_next_closed_empty_pending_witness :
    ((⟨[], true⟩ : Channel (AbstractBlockainEvent EthAddress EthHash)).buffer = [] ∧
     (⟨[], true⟩ : Channel (AbstractBlockainEvent EthAddress EthHash)).closed = true) ∧
    ((poll_next ⟨[], true⟩).result = Poll.pending ∧
     (poll_next ⟨[], true⟩).state
       = (⟨[], true⟩ : Channel (AbstractBlockainEvent EthAddress EthHash))) :=
  ⟨⟨rfl, rfl⟩, poll_next_closed_empty_pending ⟨[], true⟩ rfl rfl⟩

/-- Claim C6: when the next channel item is an initiator-contract event
carrying an error, the monitoring stream logs the error and returns Pending -
the error item is not handed to the caller and the stream is not terminated -
and the following pull still delivers the next Ok role event, whichever
variant it is, whatever follows it in the buffer and whatever the closed
flag. -/
theorem poll_next_error_is_logged_and_skipped
    (e : EthInitiatorError) (ev : BridgeContractInitiatorEvent EthAddress EthHash)
    (rest : List (AbstractBlockainEvent EthAddress EthHash)) (closed : Bool) :
    (poll_next ⟨AbstractBlockainEvent.InitiatorContractEvent (Except.error e) ::
        AbstractBlockainEvent.InitiatorContractEvent (Except.ok ev) :: rest, closed⟩).result
      = Poll.pending ∧
    error_in_contract_event ∈
      (poll_next ⟨AbstractBlockainEvent.InitiatorContractEvent (Except.error e) ::
        AbstractBlockainEvent.InitiatorContractEvent (Except.ok ev) :: rest, closed⟩).logged ∧
    (poll_next (poll_next ⟨AbstractBlockainEvent.InitiatorContractEvent (Except.error e) ::
        AbstractBlockainEvent.InitiatorContractEvent (Except.ok ev) :: rest, closed⟩).state).result
      = Poll.ready (some ev) := by
  refine ⟨rfl, ?_, ?_⟩
  · simp [poll_next, chanPollNext]
  · cases ev <;> rfl

/-- Claim C7: once the relay channel's receiving end is dropped - dead from
the current step on - the relay loop forwards nothing further and polls at
most one more raw log from the subscription stream: its next send attempt
fails and the loop breaks. -/
theorem relay_stops_after_receiver_drop (alive : Nat → Bool) (i : Nat) (logs : List Log)
    (h : ∀ j, i ≤ j → alive j = false) :
    (relay_task alive i logs).1 = [] ∧ (relay_task alive i logs).2 ≤ 1 := by
  obtain ⟨h1, h2⟩ := relay_task_receiver_dead alive i logs h
  refine ⟨h1, ?_⟩
  rw [h2]
  exact Nat.min_le_left 1 _

/-- Witness for claim C7 with the receiver dead from the start and two queued
logs: the relay forwards nothing and polls one log. -/
theorem relay_stops_after_receiver_drop_witness :
    (∀ j, 0 ≤ j → (fun _ => false : Nat → Bool) j = false) ∧
    ((relay_task (fun _ => false) 0 [demo_initiated_log, demo_completed_log]).1 = [] ∧
     (relay_task (fun _ => false) 0 [demo_initiated_log, demo_completed_log]).2 ≤ 1) :=
  ⟨fun _ _ => rfl,
   relay_stops_after_receiver_drop (fun _ => false) 0
     [demo_initiated_log, demo_completed_log] (fun _ _ => rfl)⟩

/-- Claim C8, counterexample: the subscription filter's allow-list has only
two entries and the canonical Refunded signature is not among them, so it is
not the three-signature set the claim states. -/
theorem run_filter_missing_refunded :
    run_filter.events.length = 2 ∧
    List.contains run_filter.events refunded_event_signature = false :=
  ⟨rfl, by decide⟩

/-- Claim C8, amended: the subscription filter is built on the hardcoded
initiator contract address, with an allow-list of exactly the canonical
Initiated and Completed signatures - the Refunded signature is absent - and
starts from the latest block. -/
theorem run_filter_contents :
    run_filter.address = initiator_address_bytes ∧
    run_filter.events = [initiated_event_signature, completed_event_signature] ∧
    run_filter.from_block = BlockNumberOrTag.Latest :=
  ⟨rfl, rfl, rfl⟩

/-- Claim C9: in-order delivery fails on the code. With three subscription
logs of which the middle one has an unrecognized topic, run delivers nothing
at all (the relay channel's receiver was discarded, the task stops after the
first log) and the listener pull stays Pending; and even with a receiver that
stays alive, the failing middle log panics the relay task instead of
surfacing as an error in its position, so only the first log's event is ever
forwarded and the third is lost. -/
theorem ordering_fails_nothing_delivered :
    (run empty_channel
      [demo_initiated_log, unknown_topic_log, demo_completed_log]).relayed = [] ∧
    (run empty_channel
      [demo_initiated_log, unknown_topic_log, demo_completed_log]).polled = 1 ∧
    (poll_next (run empty_channel
      [demo_initiated_log, unknown_topic_log, demo_completed_log]).monitor.listener).result
      = Poll.pending ∧
    convert_log_to_event initiator_contract_address unknown_topic_log =
      PanicOr.panicked "not implemented: Unexpected event type" ∧
    (relay_task (fun _ => true) 0
      [demo_initiated_log, unknown_topic_log, demo_completed_log]).1
      = [AbstractBlockainEvent.InitiatorContractEvent
          (Except.ok (BridgeContractInitiatorEvent.Initiated demo_details))] ∧
    (relay_task (fun _ => true) 0
      [demo_initiated_log, unknown_topic_log, demo_completed_log]).2 = 2 :=
  ⟨rfl, rfl, rfl, rfl, rfl, rfl⟩

/-- Claim C10: in run, the relay channel's receiving half is discarded at
creation and never connected to the monitor's listener field: for every
listener channel and every subscription log sequence, the relay forwards
nothing, polls exactly min 1 n raw logs (its first send attempt fails,
terminating the task after at most one log), and the returned monitor's
listener is the caller's channel, untouched by the relay. -/
theorem run_relay_channel_disconnected
    (listener : Channel (AbstractBlockainEvent EthAddress EthHash)) (sub_logs : List Log) :
    (run listener sub_logs).relayed = [] ∧
    (run listener sub_logs).polled = min 1 sub_logs.length ∧
    (run listener sub_logs).monitor.listener = listener := by
  obtain ⟨h1, h2⟩ := relay_task_receiver_dead (fun _ => false) 0 sub_logs (fun _ _ => rfl)
  exact ⟨h1, h2, rfl⟩

end EthBridge
